import Mathlib

/-!
Verification model of the `MySQLStore` session store (src/src/index.ts).

The store persists session records in one SQL table and exposes the
express-session CRUD contract (get, set, touch, destroy, length, all,
clear) plus lifecycle (construction, onReady, close) and a periodic
expired-session sweeper.

Modelling conventions:
  * The sessions table is a list of rows; each SQL statement the store
    issues is embedded as a pure function on that list.
  * Machine time is `Int` milliseconds (`Date.now()`), and stored expiry
    values are `Int` whole Unix seconds, exactly as the code computes them
    with `Math.round(ms / 1000)`.
  * The external driver call `connection.query` either succeeds or throws;
    this is the `dbErr : Option String` parameter of each operation
    (`none` = the query succeeded, `some e` = the driver threw `e`).
  * Callback-style completion is modelled by returning the list of
    callback invocations an operation performs, in order.
  * Express-session stores cookie expiry values as `Date` objects (or
    leaves them unset); `JsDate` wraps the millisecond timestamp of such
    an object. A present `Date` object is always truthy in JS, so the
    truthiness tests of the source on these fields are `Option.isSome`.
  * `JSON.stringify` / `JSON.parse` are external platform functions; the
    serialized payload travels through the store as an opaque `String`,
    and `get` / `all` receive the parse function as a parameter.
-/

/-- A `Date` object: its `getTime()` value in milliseconds. -/
structure JsDate where
  ms : Int
deriving DecidableEq, Repr

/-- The cookie sub-object of a session payload, with the two optional
expiry fields the store inspects (`cookie.expires` and `cookie._expires`,
src lines 245-249 and 290-294). -/
structure SessionCookie where
  expires : Option JsDate
  _expires : Option JsDate
deriving DecidableEq, Repr

/-- A session payload as far as the store inspects it: only the optional
`cookie` sub-object is ever read (the rest is serialized opaquely). -/
structure SessionData where
  cookie : Option SessionCookie
deriving DecidableEq, Repr

/-- One persisted row of the sessions table:
`session_id` (primary key), `expires` (Unix seconds), `data` (serialized
payload text). -/
structure Row where
  session_id : String
  expires : Int
  data : String
deriving DecidableEq, Repr

/-- One invocation of a completion callback: `CbCall.ok r` is
`callback(null[, r])`, `CbCall.fail e` is `callback(error)`. -/
inductive CbCall where
  | ok (result : Option String)
  | fail (e : String)
deriving DecidableEq, Repr

/-- `Math.round(x / 1000)` for an integer millisecond value `x`:
JS `Math.round` is floor of `x / 1000 + 1/2`. -/
def mathRound1000 (x : Int) : Int :=
  Int.fdiv (x + 500) 1000

/-! ## SQL statement semantics

Each statement the store issues, as a pure function on the table. -/

/-- `SELECT ?? AS data, ?? AS expires FROM ?? WHERE ?? = ?` (get, line 201):
the rows whose session id equals the requested one. -/
def sqlSelectSession (tbl : List Row) (id : String) : List Row :=
  tbl.filter (fun r => r.session_id == id)

/-- `INSERT INTO ?? (...) VALUES (...) ON DUPLICATE KEY UPDATE ...`
(set, line 260): insert a new row, or on a primary-key conflict update
the existing row to the new expires and data. -/
def sqlUpsert (tbl : List Row) (id : String) (e : Int) (d : String) : List Row :=
  if tbl.any (fun r => r.session_id == id) then
    tbl.map (fun r => if r.session_id == id then { r with expires := e, data := d } else r)
  else
    tbl ++ [{ session_id := id, expires := e, data := d }]

/-- `UPDATE ?? SET ?? = ? WHERE ?? = ?` (touch, line 305): set the expires
column of the matching row, leaving every other column and row alone. -/
def sqlUpdateExpires (tbl : List Row) (id : String) (e : Int) : List Row :=
  tbl.map (fun r => if r.session_id == id then { r with expires := e } else r)

/-- `DELETE FROM ?? WHERE ?? = ?` (destroy, line 327). -/
def sqlDeleteSession (tbl : List Row) (id : String) : List Row :=
  tbl.filter (fun r => !(r.session_id == id))

/-- `SELECT COUNT(*) FROM ?? WHERE ?? >= ?` (length, line 346): the number
of rows whose expires is at least `now`. -/
def sqlCountUnexpired (tbl : List Row) (now : Int) : Nat :=
  (tbl.filter (fun r => decide (now ≤ r.expires))).length

/-- `SELECT * FROM ?? WHERE ?? >= ?` (all, line 364). -/
def sqlSelectUnexpired (tbl : List Row) (now : Int) : List Row :=
  tbl.filter (fun r => decide (now ≤ r.expires))

/-- `DELETE FROM ??` (clear, line 395): remove every row. -/
def sqlDeleteAll (_tbl : List Row) : List Row :=
  []

/-- `DELETE FROM ?? WHERE ?? < ?` (clearExpiredSessions, line 407): delete
the rows whose expires is strictly below `now`; the others survive. -/
def sqlDeleteExpired (tbl : List Row) (now : Int) : List Row :=
  tbl.filter (fun r => !(decide (r.expires < now)))

/-! ## The internal query wrapper

`MySQLStore.query` (src lines 425-432) awaits `connection.query` inside a
try/catch whose catch arm only logs: a driver failure is swallowed and the
wrapper returns `undefined` instead of rethrowing. Consequently the
wrapper itself never throws, so its `Except` result is never `.error`. -/

/-- `MySQLStore.query` for statements whose result set matters: returns
`some rows` on success and `none` (JS `undefined`) when the driver threw,
because the catch arm only logs. The outer `Except` records whether the
wrapper itself threw, which it never does. -/
def runQueryRes {α : Type} (res : α) (dbErr : Option String) : Except String (Option α) :=
  match dbErr with
  | none => Except.ok (some res)
  | some _ => Except.ok none

/-- `MySQLStore.query` for mutating statements: the table is changed only
when the driver succeeded, and the wrapper never rethrows the driver
error, so the returned `Except` is never `.error`. -/
def runQuery (apply : List Row → List Row) (tbl : List Row) (dbErr : Option String) :
    List Row × Except String Unit :=
  match dbErr with
  | none => (apply tbl, Except.ok ())
  | some _ => (tbl, Except.ok ())

/-- Line 213 tests `!!rows`, where `rows` is the array of result rows; a
JS array is truthy even when empty, so this is constantly `true`. -/
def jsArrayTruthy (_rows : List Row) : Bool :=
  true

/-! ## Expiry computation

`set` (src lines 243-258) and `touch` (src lines 288-303) contain the same
expiry computation, duplicated in the source; each is embedded here from
its own lines. Express-session keeps cookie expiry values as `Date`
objects, so the truthiness checks on `data.cookie.expires` and
`data.cookie._expires` are presence checks, and the
`if (!(expires instanceof Date)) expires = new Date(expires)` coercion is
the identity on the already-a-Date branch and wraps the computed
millisecond number on the default branch. -/

/-- Expiry computation of `set` (src lines 243-258). -/
def set_computeExpires (data : SessionData) (nowMs : Int) (expiration : Int) : Int :=
  let expires : Option JsDate :=
    match data.cookie with
    | some cookie =>
      match cookie.expires with
      | some d => some d
      | none => cookie._expires
    | none => none
  let expiresDate : JsDate :=
    match expires with
    | some d => d
    | none => { ms := nowMs + expiration }
  mathRound1000 expiresDate.ms

/-- Expiry computation of `touch` (src lines 288-303); textually the same
code as in `set`. -/
def touch_computeExpires (data : SessionData) (nowMs : Int) (expiration : Int) : Int :=
  let expires : Option JsDate :=
    match data.cookie with
    | some cookie =>
      match cookie.expires with
      | some d => some d
      | none => cookie._expires
    | none => none
  let expiresDate : JsDate :=
    match expires with
    | some d => d
    | none => { ms := nowMs + expiration }
  mathRound1000 expiresDate.ms

/-! ## Store options -/

/-- The merged schema configuration. Column names are a JS object embedded
as an ordered association list, so that unknown keys supplied by the
caller are representable. -/
structure SchemaModel where
  tableName : String
  columnNames : List (String × String)
deriving DecidableEq, Repr

/-- The effective (merged) store options, the type of the private
`#options` field. -/
structure OptionsModel where
  clearExpired : Bool
  checkExpirationInterval : Int
  expiration : Int
  createDatabaseTable : Bool
  endConnectionOnClose : Bool
  disableTouch : Bool
  charset : String
  schema : SchemaModel
deriving DecidableEq, Repr

/-- `defaultOptions` (src lines 32-54). -/
def defaultOptions : OptionsModel :=
  { clearExpired := true
    checkExpirationInterval := 900000
    expiration := 86400000 * 60
    createDatabaseTable := true
    endConnectionOnClose := true
    disableTouch := false
    charset := "utf8mb4_bin"
    schema :=
      { tableName := "sessions"
        columnNames :=
          [("session_id", "session_id"), ("expires", "expires"), ("data", "data")] } }

/-- A caller-supplied schema override; each part may be absent. -/
structure UserSchema where
  tableName : Option String
  columnNames : Option (List (String × String))
deriving DecidableEq, Repr

/-- A caller-supplied options object; JS callers may omit any field. -/
structure UserOptions where
  clearExpired : Option Bool
  checkExpirationInterval : Option Int
  expiration : Option Int
  createDatabaseTable : Option Bool
  endConnectionOnClose : Option Bool
  disableTouch : Option Bool
  charset : Option String
  schema : Option UserSchema
deriving DecidableEq, Repr

/-- A user options object with every field absent. -/
def emptyUserOptions : UserOptions :=
  { clearExpired := none
    checkExpirationInterval := none
    expiration := none
    createDatabaseTable := none
    endConnectionOnClose := none
    disableTouch := none
    charset := none
    schema := none }

/-- The JS object spread `{...base, ...overrides}` on string-keyed
objects: keys of `base` keep their position but take the overriding value
when present; keys only in `overrides` are appended. -/
def objectSpread (base overrides : List (String × String)) : List (String × String) :=
  base.map (fun p =>
    match overrides.lookup p.1 with
    | some v => (p.1, v)
    | none => p)
  ++ overrides.filter (fun p => !((base.map Prod.fst).contains p.1))

/-- The column names supplied by the caller (`options?.schema?.columnNames`),
or the empty object when absent. -/
def userColumnNames (user : UserOptions) : List (String × String) :=
  (user.schema.bind UserSchema.columnNames).getD []

/-- The merge performed by the `options` setter (src lines 140-154):
top-level spread of the user options over the defaults, then
`endConnectionOnClose = !this.connection` (line 145) overriding any
caller-supplied value, then independent spreads for `schema` and
`schema.columnNames`. -/
def mergeOptions (connectionPresent : Bool) (user : UserOptions) : OptionsModel :=
  { clearExpired := user.clearExpired.getD defaultOptions.clearExpired
    checkExpirationInterval :=
      user.checkExpirationInterval.getD defaultOptions.checkExpirationInterval
    expiration := user.expiration.getD defaultOptions.expiration
    createDatabaseTable := user.createDatabaseTable.getD defaultOptions.createDatabaseTable
    endConnectionOnClose := !connectionPresent
    disableTouch := user.disableTouch.getD defaultOptions.disableTouch
    charset := user.charset.getD defaultOptions.charset
    schema :=
      { tableName :=
          (user.schema.bind UserSchema.tableName).getD defaultOptions.schema.tableName
        columnNames :=
          objectSpread defaultOptions.schema.columnNames (userColumnNames user) } }

/-- `Object.keys(defaultOptions.schema.columnNames)` (src line 160). -/
def allowedColumnNames : List String :=
  ["session_id", "expires", "data"]

/-- `validateOptions` (src lines 158-167): walks the configured column-name
keys and throws on the first one outside the allow-list. -/
def validateOptions (opts : OptionsModel) : Except String Unit :=
  match (opts.schema.columnNames.map Prod.fst).find?
      (fun k => !(allowedColumnNames.contains k)) with
  | some k => Except.error ("Unknown column specified (\x22" ++ k ++ "\x22).")
  | none => Except.ok ()

/-- The synchronous per-store state the configuration claims need. -/
structure StoreSync where
  state : String
  connectionPresent : Bool
  options : OptionsModel
deriving DecidableEq, Repr

/-- The `options` setter (src lines 140-156): the merged object is
assigned to the private `#options` field first, and only then validated;
when validation throws, the merged (invalid) options are already in place
and are not rolled back. -/
def setOptionsOnStore (s : StoreSync) (user : UserOptions) :
    StoreSync × Except String Unit :=
  let merged := mergeOptions s.connectionPresent user
  ({ s with options := merged }, validateOptions merged)

/-! ## CRUD operations

Each operation returns the table after the call (for mutating operations)
and the list of callback invocations it performed. -/

/-- `get` (src lines 198-239). The SELECT result goes through the
swallowing `query` wrapper; `const [rows] = result` throws a TypeError
when the wrapper returned `undefined`; line 213 then tests `!!rows`
(constantly true for an array) and returns `callback(null)` — the
commented "not found" branch — so the expiry check and payload decode
below it are unreachable. -/
def getOp (tbl : List Row) (id : String) (now : Int) (dbErr : Option String)
    (parse : String → Except String String) : List CbCall :=
  match runQueryRes (sqlSelectSession tbl id) dbErr with
  | Except.error e => [CbCall.fail e]
  | Except.ok none => [CbCall.fail "TypeError: result is not iterable"]
  | Except.ok (some rows) =>
    if jsArrayTruthy rows then
      [CbCall.ok none]
    else
      match rows.head? with
      | none => [CbCall.fail "TypeError: cannot read properties of undefined"]
      | some row =>
        if row.expires < now then
          [CbCall.ok none]
        else
          match parse row.data with
          | Except.error e => [CbCall.fail e]
          | Except.ok d => [CbCall.ok (some d)]

/-- `set` (src lines 241-283). `dataJson` is the output of the external
`JSON.stringify(data)`. The catch arm would hand a thrown error to the
callback, but the `query` wrapper never throws. -/
def setOp (tbl : List Row) (id : String) (data : SessionData) (dataJson : String)
    (nowMs : Int) (opts : OptionsModel) (dbErr : Option String) :
    List Row × List CbCall :=
  let expires := set_computeExpires data nowMs opts.expiration
  let (tbl2, q) := runQuery (fun t => sqlUpsert t id expires dataJson) tbl dbErr
  match q with
  | Except.ok _ => (tbl2, [CbCall.ok none])
  | Except.error e => (tbl2, [CbCall.fail e])

/-- `touch` (src lines 285-321). When `disableTouch` is set, line 286 is
`return;` with a noop comment: the callback is never invoked. Otherwise
the expiry is recomputed and only the expires column updated; the catch
arm is again unreachable because `query` never throws. -/
def touchOp (tbl : List Row) (id : String) (data : SessionData) (nowMs : Int)
    (opts : OptionsModel) (dbErr : Option String) : List Row × List CbCall :=
  if opts.disableTouch then
    (tbl, [])
  else
    let expires := touch_computeExpires data nowMs opts.expiration
    let (tbl2, q) := runQuery (fun t => sqlUpdateExpires t id expires) tbl dbErr
    match q with
    | Except.ok _ => (tbl2, [CbCall.ok none])
    | Except.error e => (tbl2, [CbCall.fail e])

/-- `destroy` (src lines 323-342). The catch arm hands a thrown error to
the callback when one was provided; on the non-throwing path the trailing
lines invoke `callback()` when provided. -/
def destroyOp (tbl : List Row) (id : String) (callbackProvided : Bool)
    (dbErr : Option String) : List Row × List CbCall :=
  let (tbl2, q) := runQuery (fun t => sqlDeleteSession t id) tbl dbErr
  match q with
  | Except.error e => (tbl2, if callbackProvided then [CbCall.fail e] else [])
  | Except.ok _ => (tbl2, if callbackProvided then [CbCall.ok none] else [])

/-- `length` (src lines 344-361). A COUNT result set always has one row,
and `rows[0] && rows[0][COUNT] || 0` yields the count (0 when the count
is 0); destructuring the wrapper result throws when the driver failed. -/
def lengthOp (tbl : List Row) (now : Int) (dbErr : Option String) : List CbCall :=
  match runQueryRes (sqlCountUnexpired tbl now) dbErr with
  | Except.error e => [CbCall.fail e]
  | Except.ok none => [CbCall.fail "TypeError: result is not iterable"]
  | Except.ok (some cnt) => [CbCall.ok (some (toString cnt))]

/-- `all` (src lines 363-390): selects the unexpired rows and builds the
id-to-data mapping; a row whose payload fails to parse is skipped (the
forEach callback returns early) rather than failing the call. -/
def allOp (tbl : List Row) (now : Int) (dbErr : Option String)
    (parse : String → Except String String) : List CbCall :=
  match runQueryRes (sqlSelectUnexpired tbl now) dbErr with
  | Except.error e => [CbCall.fail e]
  | Except.ok none => [CbCall.fail "TypeError: result is not iterable"]
  | Except.ok (some rows) =>
    let sessions := rows.foldl (fun acc r =>
      match parse r.data with
      | Except.error _ => acc
      | Except.ok d => acc ++ [(r.session_id, d)]) ([] : List (String × String))
    [CbCall.ok (some (toString sessions))]

/-- `clear` (src lines 392-403). The DELETE is issued without `await`, so
the try/catch can only catch synchronous throws, of which there are none
(and the `query` wrapper swallows driver failures anyway); the success
path falls off the end of the function. Whether or not a callback was
provided, it is never invoked. -/
def clearOp (tbl : List Row) (_callbackProvided : Bool) (dbErr : Option String) :
    List Row × List CbCall :=
  let (tbl2, _q) := runQuery (fun t => sqlDeleteAll t) tbl dbErr
  (tbl2, [])

/-- `clearExpiredSessions` (src lines 405-423): one sweep. The catch arm
would rethrow, but the `query` wrapper never throws. -/
def clearExpiredSessionsOp (tbl : List Row) (now : Int) (dbErr : Option String) :
    List Row × Except String Unit :=
  let (tbl2, q) := runQuery (fun t => sqlDeleteExpired t now) tbl dbErr
  match q with
  | Except.ok _ => (tbl2, Except.ok ())
  | Except.error e => (tbl2, Except.error e)

/-! ## Lifecycle -/

/-- What happens to the pending onReady waiters when the init pipeline
settles. -/
inductive WaiterOutcome where
  | resolved
  | rejected (e : String)
deriving DecidableEq, Repr

/-- `createDatabaseTable` (src lines 169-196): issues the CREATE TABLE
statement through `query` and rethrows a caught error — but `query`
swallows driver failures, so the error arm is unreachable. -/
def createDatabaseTableModel (dbErr : Option String) : Except String Unit :=
  match runQueryRes () dbErr with
  | Except.ok _ => Except.ok ()
  | Except.error e => Except.error e

/-- The async init pipeline of the constructor (src lines 94-107): create
the table when configured, then set the state to INITIALIZED and resolve
the waiters; on a thrown error the state keeps its INITIALIZING value and
the waiters are rejected. -/
def initPipeline (createTable : Bool) (dbErr : Option String) : String × WaiterOutcome :=
  match (if createTable then createDatabaseTableModel dbErr else Except.ok ()) with
  | Except.ok _ => ("INITIALIZED", WaiterOutcome.resolved)
  | Except.error e => ("INITIALIZING", WaiterOutcome.rejected e)

/-- The synchronous part of the constructor (src lines 83-93): throw when
no connection was supplied; otherwise record the connection, and run the
options setter only when an options object was passed
(`options && (this.options = options)`), propagating a validation throw. -/
def constructSync (userOpts : Option UserOptions) (connectionPresent : Bool) :
    Except String StoreSync :=
  if !connectionPresent then
    Except.error "MySQLStore requires a mysql connection"
  else
    let s0 : StoreSync :=
      { state := "INITIALIZING", connectionPresent := true, options := defaultOptions }
    match userOpts with
    | none => Except.ok s0
    | some u =>
      let (s1, v) := setOptionsOnStore s0 u
      match v with
      | Except.ok _ => Except.ok s1
      | Except.error e => Except.error e

/-- Full construction: the synchronous constructor body, then the async
init pipeline when the former did not throw. The second component counts
the SQL statements issued during construction. -/
def constructModel (userOpts : Option UserOptions) (connectionPresent : Bool)
    (dbErr : Option String) : Except String (StoreSync × WaiterOutcome) × Nat :=
  match constructSync userOpts connectionPresent with
  | Except.error e => (Except.error e, 0)
  | Except.ok s =>
    let (st, w) := initPipeline s.options.createDatabaseTable dbErr
    (Except.ok ({ s with state := st }, w), if s.options.createDatabaseTable then 1 else 0)

/-- The condition of `close` (src lines 447-458) under which the store
ends the connection. -/
def closeWillEndConnection (state : String) (connectionPresent endConnectionOnClose : Bool) :
    Bool :=
  state == "INITIALIZED" && connectionPresent && endConnectionOnClose

/-! ## Spec-side definition for the expiry rule (claim C7) -/

/-- The stored-expiry rule as the claim states it: the payload's
`cookie.expires` field if it is set, else the payload's `cookie._expires`
field if that is set, else current time plus the configured expiration;
normalized to whole Unix seconds by `round(ms / 1000)`. -/
def claimedStoredExpiry (data : SessionData) (nowMs : Int) (expiration : Int) : Int :=
  let fromCookie : Option Int :=
    ((data.cookie.bind SessionCookie.expires).map JsDate.ms).orElse
      (fun _ => (data.cookie.bind SessionCookie._expires).map JsDate.ms)
  mathRound1000 (fromCookie.getD (nowMs + expiration))

/-! ## Sample values used by concrete theorems -/

/-- A payload whose cookie carries an explicit expiry `Date`. -/
def sampleData : SessionData :=
  { cookie := some { expires := some { ms := 1700003600000 }, _expires := none } }

/-- The same payload with a later explicit expiry `Date`. -/
def sampleData2 : SessionData :=
  { cookie := some { expires := some { ms := 1700007200000 }, _expires := none } }

/-! ## Theorems -/

/-- Claim C1: after a successful `set(id, data)` with the stored expiry in
the future, `get(id)` should hand the callback a value equal to `data`,
and repeated `set` calls should converge to one row with the latest expiry
and data. The upsert half holds, but the round-trip fails on the code:
line 213 tests `!!rows`, which is true for every result array, so `get`
answers `callback(null)` ("not found") for every session, including one
just stored and unexpired. -/
theorem set_then_get_reports_not_found :
    (setOp [] "abc" sampleData "SERIALIZED" 1700000000000 defaultOptions none).1
      = [{ session_id := "abc", expires := 1700003600, data := "SERIALIZED" }]
  ∧ (setOp [] "abc" sampleData "SERIALIZED" 1700000000000 defaultOptions none).2
      = [CbCall.ok none]
  ∧ ((1700000000 : Int) ≤ 1700003600)
  ∧ (setOp (setOp [] "abc" sampleData "SERIALIZED" 1700000000000 defaultOptions none).1
        "abc" sampleData2 "SERIALIZED2" 1700000100000 defaultOptions none).1
      = [{ session_id := "abc", expires := 1700007200, data := "SERIALIZED2" }]
  ∧ getOp (setOp [] "abc" sampleData "SERIALIZED" 1700000000000 defaultOptions none).1
        "abc" 1700000000 none (fun s => Except.ok s)
      = [CbCall.ok none]
  ∧ getOp (setOp [] "abc" sampleData "SERIALIZED" 1700000000000 defaultOptions none).1
        "abc" 1700000000 none (fun s => Except.ok s)
      ≠ [CbCall.ok (some "SERIALIZED")] := by
  refine ⟨rfl, rfl, by decide, rfl, rfl, by decide⟩

/-- Claim C2: a CRUD operation whose underlying query fails should hand
that error to its completion callback. On the code, `MySQLStore.query`
catches every driver error and only logs it, returning `undefined`: `set`,
`touch` and `destroy` therefore report success to their callbacks on a
failed query, and `get` fails with a `TypeError` from destructuring
`undefined` rather than with the query's error. -/
theorem query_failure_reported_as_success :
    (setOp [] "sid" sampleData "SER" 1700000000000 defaultOptions
        (some "ER_ACCESS_DENIED")).2 = [CbCall.ok none]
  ∧ (touchOp [{ session_id := "sid", expires := 99, data := "SER" }] "sid" sampleData
        1700000000000 defaultOptions (some "ER_ACCESS_DENIED")).2 = [CbCall.ok none]
  ∧ (destroyOp [{ session_id := "sid", expires := 99, data := "SER" }] "sid" true
        (some "ER_ACCESS_DENIED")).2 = [CbCall.ok none]
  ∧ getOp [] "sid" 1700000000 (some "ER_ACCESS_DENIED") (fun s => Except.ok s)
      = [CbCall.fail "TypeError: result is not iterable"] := by
  refine ⟨rfl, rfl, rfl, rfl⟩

/-- Claim C3: a failing table-creation step during construction should
reject every pending onReady waiter and keep the store away from the
INITIALIZED state. On the code, `query` swallows the driver error, so
`createDatabaseTable` resolves normally, the state becomes INITIALIZED and
the waiters are resolved even though the CREATE TABLE query failed. -/
theorem init_reaches_initialized_despite_create_failure :
    createDatabaseTableModel (some "ER_CANT_CREATE_TABLE") = Except.ok ()
  ∧ initPipeline true (some "ER_CANT_CREATE_TABLE")
      = ("INITIALIZED", WaiterOutcome.resolved)
  ∧ (constructModel (some emptyUserOptions) true (some "ER_CANT_CREATE_TABLE")).1
      = Except.ok ({ state := "INITIALIZED", connectionPresent := true,
                     options := mergeOptions true emptyUserOptions },
                   WaiterOutcome.resolved) := by
  refine ⟨rfl, rfl, rfl⟩

/-- Claim C7: the stored expiry of `set` and of `touch` equals the
claimed rule (cookie.expires when set, else cookie._expires when set,
else now plus the configured expiration, rounded to whole Unix seconds). -/
theorem stored_expiry_matches_claimed_rule (data : SessionData) (nowMs expiration : Int) :
    set_computeExpires data nowMs expiration = claimedStoredExpiry data nowMs expiration
  ∧ touch_computeExpires data nowMs expiration = claimedStoredExpiry data nowMs expiration := by
  obtain ⟨c⟩ := data
  cases c with
  | none =>
    constructor <;> rfl
  | some ck =>
    obtain ⟨e1, e2⟩ := ck
    cases e1 <;> cases e2 <;> constructor <;>
      simp [set_computeExpires, touch_computeExpires, claimedStoredExpiry,
        Option.orElse, Option.bind]

/-- Claim C4, counterexample: the claim requires the completion callback
to be invoked exactly once even when touch is disabled by configuration
and when clear succeeds; on the code, a disabled `touch` returns without
invoking the callback, and `clear` never invokes its callback at all. -/
theorem touch_disabled_and_clear_skip_callback :
    (touchOp [] "sid" sampleData 1700000000000
        { defaultOptions with disableTouch := true } none).2 = []
  ∧ (clearOp [{ session_id := "sid", expires := 99, data := "SER" }] true none).2 = []
  ∧ ((touchOp [] "sid" sampleData 1700000000000
        { defaultOptions with disableTouch := true } none).2).length ≠ 1
  ∧ ((clearOp [{ session_id := "sid", expires := 99, data := "SER" }] true none).2).length
      ≠ 1 := by
  refine ⟨rfl, rfl, by decide, by decide⟩

/-- Claim C4 as amended: with a callback supplied, `get`, `set`,
`destroy`, `length`, `all`, and `touch` while touch is enabled each invoke
the callback exactly once, for success and for failure of the underlying
query alike; when touch is disabled by configuration the callback is never
invoked, and `clear` never invokes its callback. -/
theorem callback_invocation_counts (tbl : List Row) (id : String) (data : SessionData)
    (dataJson : String) (nowMs now : Int) (opts : OptionsModel) (dbErr : Option String)
    (parse : String → Except String String) :
    (getOp tbl id now dbErr parse).length = 1
  ∧ ((setOp tbl id data dataJson nowMs opts dbErr).2).length = 1
  ∧ (opts.disableTouch = false → ((touchOp tbl id data nowMs opts dbErr).2).length = 1)
  ∧ (opts.disableTouch = true → (touchOp tbl id data nowMs opts dbErr).2 = [])
  ∧ ((destroyOp tbl id true dbErr).2).length = 1
  ∧ (lengthOp tbl now dbErr).length = 1
  ∧ (allOp tbl now dbErr parse).length = 1
  ∧ (clearOp tbl true dbErr).2 = [] := by
  refine ⟨?_, ?_, ?_, ?_, ?_, ?_, ?_, ?_⟩
  · cases dbErr <;> simp [getOp, runQueryRes, jsArrayTruthy]
  · cases dbErr <;> simp [setOp, runQuery]
  · intro h
    cases dbErr <;> simp [touchOp, h, runQuery]
  · intro h
    simp [touchOp, h]
  · cases dbErr <;> simp [destroyOp, runQuery]
  · cases dbErr <;> simp [lengthOp, runQueryRes]
  · cases dbErr <;> simp [allOp, runQueryRes]
  · cases dbErr <;> simp [clearOp, runQuery]

/-- Witness for the amended claim C4 at concrete inputs. -/
theorem callback_invocation_counts_witness :
    ((touchOp [] "sid" sampleData 1700000000000 defaultOptions none).2).length = 1
  ∧ (touchOp [] "sid" sampleData 1700000000000
        { defaultOptions with disableTouch := true } none).2 = [] := by
  exact ⟨(callback_invocation_counts [] "sid" sampleData "SER" 1700000000000 1700000000
            defaultOptions none (fun s => Except.ok s)).2.2.1 rfl,
         (callback_invocation_counts [] "sid" sampleData "SER" 1700000000000 1700000000
            { defaultOptions with disableTouch := true } none
            (fun s => Except.ok s)).2.2.2.1 rfl⟩

/-- Claim C5, counterexample: the claim requires `endConnectionOnClose` to
be forced false for every construction with an external connection, with
or without a caller-supplied options object. When no options object is
supplied, `options && (this.options = options)` skips the setter, so the
default `endConnectionOnClose = true` stays in effect, and `close()` on an
initialized store then ends the externally supplied connection. -/
theorem default_construction_keeps_endConnectionOnClose :
    constructSync none true
      = Except.ok { state := "INITIALIZING", connectionPresent := true,
                    options := defaultOptions }
  ∧ defaultOptions.endConnectionOnClose = true
  ∧ closeWillEndConnection "INITIALIZED" true defaultOptions.endConnectionOnClose
      = true := by
  refine ⟨rfl, rfl, rfl⟩

/-- Claim C5 as amended: whenever a caller-supplied options object is
provided (construction always has an externally supplied connection, since
it throws otherwise), the effective `endConnectionOnClose` is forced to
false — overriding any caller-supplied value — and `close()` will not end
the connection in any state; when no options object is supplied, the
default `endConnectionOnClose = true` is kept. -/
theorem options_supplied_force_endConnectionOnClose_false (user : UserOptions)
    (s : StoreSync) (h : constructSync (some user) true = Except.ok s) :
    s.options.endConnectionOnClose = false
  ∧ (∀ st, closeWillEndConnection st s.connectionPresent s.options.endConnectionOnClose
        = false) := by
  have hs : s.options = mergeOptions true user := by
    unfold constructSync setOptionsOnStore at h
    simp only [Bool.not_true, Bool.false_eq_true, if_false] at h
    cases hv : validateOptions (mergeOptions true user) with
    | ok _ =>
      rw [hv] at h
      simp only [Except.ok.injEq] at h
      rw [← h]
    | error e =>
      rw [hv] at h
      simp at h
  refine ⟨by rw [hs]; rfl, ?_⟩
  intro st
  rw [hs]
  simp [closeWillEndConnection, mergeOptions]

/-- Witness for the amended claim C5 at a concrete input. -/
theorem options_supplied_force_endConnectionOnClose_false_witness :
    (constructSync (some emptyUserOptions) true
      = Except.ok { state := "INITIALIZING", connectionPresent := true,
                    options := mergeOptions true emptyUserOptions })
  ∧ ({ state := "INITIALIZING", connectionPresent := true,
       options := mergeOptions true emptyUserOptions
       : StoreSync }).options.endConnectionOnClose = false := by
  exact ⟨rfl,
    (options_supplied_force_endConnectionOnClose_false emptyUserOptions
      { state := "INITIALIZING", connectionPresent := true,
        options := mergeOptions true emptyUserOptions } rfl).1⟩

/-- A key present in the overriding object is present in the spread
result: the JS spread keeps every overriding key, so an unknown
column-name key survives the merge with the defaults. -/
theorem mem_objectSpread_keys (base overrides : List (String × String)) (k : String)
    (hk : k ∈ overrides.map Prod.fst) :
    k ∈ (objectSpread base overrides).map Prod.fst := by
  unfold objectSpread
  rw [List.map_append]
  by_cases hb : k ∈ base.map Prod.fst
  · apply List.mem_append_left
    have hkeys : (base.map (fun p => match overrides.lookup p.1 with
        | some v => (p.1, v)
        | none => p)).map Prod.fst = base.map Prod.fst := by
      rw [List.map_map]
      apply List.map_congr_left
      intro p _
      simp only [Function.comp_apply]
      cases List.lookup p.1 overrides <;> rfl
    rw [hkeys]
    exact hb
  · apply List.mem_append_right
    obtain ⟨p, hp, hpk⟩ := List.mem_map.mp hk
    apply List.mem_map.mpr
    refine ⟨p, List.mem_filter.mpr ⟨hp, ?_⟩, hpk⟩
    rw [hpk]
    simp only [Bool.not_eq_true', List.contains, List.elem_eq_mem, decide_eq_false_iff_not]
    exact hb

/-- An unknown column-name key supplied by the caller makes
`validateOptions` reject the merged options, whatever the connection
state. -/
theorem validateOptions_error_of_unknown_key (cp : Bool) (user : UserOptions) (k : String)
    (hk : k ∈ (userColumnNames user).map Prod.fst) (hbad : k ∉ allowedColumnNames) :
    ∃ e, validateOptions (mergeOptions cp user) = Except.error e := by
  have hmem : k ∈ ((mergeOptions cp user).schema.columnNames.map Prod.fst) :=
    mem_objectSpread_keys defaultOptions.schema.columnNames (userColumnNames user) k hk
  have hfind : (((mergeOptions cp user).schema.columnNames.map Prod.fst).find?
      (fun k2 => !(allowedColumnNames.contains k2))).isSome := by
    rw [List.find?_isSome]
    refine ⟨k, hmem, ?_⟩
    simp only [Bool.not_eq_true', List.contains, List.elem_eq_mem, decide_eq_false_iff_not]
    exact hbad
  obtain ⟨b, hfb⟩ := Option.isSome_iff_exists.mp hfind
  refine ⟨"Unknown column specified (\x22" ++ b ++ "\x22).", ?_⟩
  unfold validateOptions
  rw [hfb]

/-- A validation throw aborts the synchronous constructor body. -/
theorem constructSync_error_of_validate (user : UserOptions) (e : String)
    (he : validateOptions (mergeOptions true user) = Except.error e) :
    constructSync (some user) true = Except.error e := by
  simp [constructSync, setOptionsOnStore, he]

/-- Claim C6: a configuration whose schema.columnNames contains a key
other than session_id, expires or data is rejected synchronously by the
options setter, and a construction attempt with such options issues no SQL
statement at all. -/
theorem unknown_column_rejected_before_sql (s : StoreSync) (user : UserOptions) (k : String)
    (hk : k ∈ (userColumnNames user).map Prod.fst) (hbad : k ∉ allowedColumnNames) :
    (∃ e, (setOptionsOnStore s user).2 = Except.error e)
  ∧ (∀ connectionPresent dbErr,
      (constructModel (some user) connectionPresent dbErr).2 = 0) := by
  constructor
  · exact validateOptions_error_of_unknown_key s.connectionPresent user k hk hbad
  · intro cp dbErr
    cases cp with
    | false => rfl
    | true =>
      obtain ⟨e, he⟩ := validateOptions_error_of_unknown_key true user k hk hbad
      have hcs := constructSync_error_of_validate user e he
      simp [constructModel, hcs]

/-- Witness for claim C6 at a concrete input: a column-name key `bogus`. -/
def bogusUserOptions : UserOptions :=
  { emptyUserOptions with
    schema := some { tableName := none, columnNames := some [("bogus", "bogus_column")] } }

/-- Witness for claim C6. -/
theorem unknown_column_rejected_before_sql_witness :
    (∃ e, (setOptionsOnStore
        { state := "UNINITIALIZED", connectionPresent := true, options := defaultOptions }
        bogusUserOptions).2 = Except.error e)
  ∧ (constructModel (some bogusUserOptions) true none).2 = 0 := by
  have h := unknown_column_rejected_before_sql
    { state := "UNINITIALIZED", connectionPresent := true, options := defaultOptions }
    bogusUserOptions "bogus" (by decide) (by decide)
  exact ⟨h.1, h.2 true none⟩

/-- Claim C10: the options setter is not atomic on validation failure —
the private options field already holds the invalid merged configuration
(including the unknown key) when the validation error is raised, and the
previously effective options are not restored. -/
theorem options_setter_not_atomic (s : StoreSync) (user : UserOptions) (k : String)
    (hk : k ∈ (userColumnNames user).map Prod.fst) (hbad : k ∉ allowedColumnNames) :
    (∃ e, (setOptionsOnStore s user).2 = Except.error e)
  ∧ (setOptionsOnStore s user).1.options = mergeOptions s.connectionPresent user
  ∧ k ∈ ((setOptionsOnStore s user).1.options.schema.columnNames.map Prod.fst)
  ∧ (k ∉ (s.options.schema.columnNames.map Prod.fst) →
      (setOptionsOnStore s user).1.options ≠ s.options) := by
  have hmem : k ∈ ((mergeOptions s.connectionPresent user).schema.columnNames.map Prod.fst) :=
    mem_objectSpread_keys defaultOptions.schema.columnNames (userColumnNames user) k hk
  refine ⟨validateOptions_error_of_unknown_key s.connectionPresent user k hk hbad,
    rfl, hmem, ?_⟩
  intro hold heq
  have hmem2 : k ∈ ((setOptionsOnStore s user).1.options.schema.columnNames.map Prod.fst) :=
    hmem
  rw [heq] at hmem2
  exact hold hmem2

/-- Witness for claim C10. -/
theorem options_setter_not_atomic_witness :
    (setOptionsOnStore
        { state := "INITIALIZING", connectionPresent := true, options := defaultOptions }
        bogusUserOptions).1.options
      ≠ ({ state := "INITIALIZING", connectionPresent := true, options := defaultOptions }
          : StoreSync).options := by
  exact (options_setter_not_atomic
    { state := "INITIALIZING", connectionPresent := true, options := defaultOptions }
    bogusUserOptions "bogus" (by decide) (by decide)).2.2.2 (by decide)

/-- Claim C8: the sweep deletes exactly the rows whose expires is strictly
below now — a row with expires equal to now survives — while length and
all select exactly the rows with expires at least now; the sweep survivors
and the selected rows coincide. -/
theorem expiry_boundary_consistency (tbl : List Row) (now : Int) :
    (∀ r, r ∈ (clearExpiredSessionsOp tbl now none).1 ↔ r ∈ tbl ∧ now ≤ r.expires)
  ∧ (∀ r, r ∈ tbl → r.expires = now → r ∈ (clearExpiredSessionsOp tbl now none).1)
  ∧ sqlCountUnexpired tbl now = (sqlSelectUnexpired tbl now).length
  ∧ (∀ r, r ∈ sqlSelectUnexpired tbl now ↔ r ∈ tbl ∧ now ≤ r.expires)
  ∧ (∀ r, r ∈ (clearExpiredSessionsOp tbl now none).1 ↔ r ∈ sqlSelectUnexpired tbl now) := by
  have hmemD : ∀ r : Row,
      r ∈ (clearExpiredSessionsOp tbl now none).1 ↔ r ∈ tbl ∧ now ≤ r.expires := by
    intro r
    show r ∈ sqlDeleteExpired tbl now ↔ _
    simp [sqlDeleteExpired, List.mem_filter, not_lt]
  have hmemS : ∀ r : Row, r ∈ sqlSelectUnexpired tbl now ↔ r ∈ tbl ∧ now ≤ r.expires := by
    intro r
    simp [sqlSelectUnexpired, List.mem_filter]
  refine ⟨hmemD, ?_, rfl, hmemS, ?_⟩
  · intro r hr hre
    exact (hmemD r).mpr ⟨hr, le_of_eq hre.symm⟩
  · intro r
    rw [hmemD r, hmemS r]

/-- Witness for claim C8: a boundary row with expires equal to now
survives the sweep. -/
theorem expiry_boundary_consistency_witness :
    ({ session_id := "a", expires := 5, data := "d" } : Row)
      ∈ (clearExpiredSessionsOp [{ session_id := "a", expires := 5, data := "d" }] 5 none).1 := by
  exact (expiry_boundary_consistency [{ session_id := "a", expires := 5, data := "d" }] 5).2.1
    { session_id := "a", expires := 5, data := "d" } (by simp) rfl

/-- Claim C9: `touch` changes at most the expires column of the addressed
row: every row keeps its session id and its data payload, and every row
whose session id differs from the touched one is completely unchanged
(this also covers a disabled touch and a failed query, which change
nothing). -/
theorem touch_preserves_payload_and_other_rows (tbl : List Row) (id : String)
    (data : SessionData) (nowMs : Int) (opts : OptionsModel) (dbErr : Option String) :
    ((touchOp tbl id data nowMs opts dbErr).1).map (fun r => (r.session_id, r.data))
      = tbl.map (fun r => (r.session_id, r.data))
  ∧ (∀ r, r ∈ tbl → r.session_id ≠ id → r ∈ (touchOp tbl id data nowMs opts dbErr).1) := by
  have hmap : ∀ e : Int,
      (sqlUpdateExpires tbl id e).map (fun r => (r.session_id, r.data))
        = tbl.map (fun r => (r.session_id, r.data)) := by
    intro e
    unfold sqlUpdateExpires
    rw [List.map_map]
    apply List.map_congr_left
    intro r _
    simp only [Function.comp_apply]
    by_cases h : (r.session_id == id) = true <;> simp [h]
  have hmem : ∀ (e : Int) (r : Row), r ∈ tbl → r.session_id ≠ id →
      r ∈ sqlUpdateExpires tbl id e := by
    intro e r hr hne
    have hb : (r.session_id == id) = false := beq_eq_false_iff_ne.mpr hne
    have hfix : (if r.session_id == id then { r with expires := e } else r) = r := by
      rw [hb]
      simp
    unfold sqlUpdateExpires
    exact hfix ▸ List.mem_map_of_mem _ hr
  cases hdt : opts.disableTouch with
  | true =>
    constructor
    · simp [touchOp, hdt]
    · intro r hr _
      simpa [touchOp, hdt] using hr
  | false =>
    cases dbErr with
    | none =>
      constructor
      · simpa [touchOp, hdt, runQuery] using hmap _
      · intro r hr hne
        simpa [touchOp, hdt, runQuery] using hmem _ r hr hne
    | some e =>
      constructor
      · simp [touchOp, hdt, runQuery]
      · intro r hr hne
        simpa [touchOp, hdt, runQuery] using hr

/-- Witness for claim C9: a row with a different session id is untouched. -/
theorem touch_preserves_payload_and_other_rows_witness :
    ({ session_id := "other", expires := 7, data := "D" } : Row)
      ∈ (touchOp [{ session_id := "other", expires := 7, data := "D" }] "sid" sampleData
          1700000000000 defaultOptions none).1 := by
  exact (touch_preserves_payload_and_other_rows
    [{ session_id := "other", expires := 7, data := "D" }]
    "sid" sampleData 1700000000000 defaultOptions none).2
    { session_id := "other", expires := 7, data := "D" } (by simp) (by decide)
